import Mathlib

/-!
Shallow embedding of the recurrence-scheduling and reminder-dispatch core of
the `compliance-copilot-api` repository, together with proofs about it.

Source files embedded:
  * `src/api/services/schedule.py`   (calendar arithmetic, recurrence resolver)
  * `src/api/services/reminders.py`  (job materializer and dispatcher)
  * `src/api/services/metrics.py`    (per-organization reminder counters)
  * `src/api/models/requirements.py` (`Requirement.mark_complete`)
  * `src/api/models/reminder_jobs.py` (the `ReminderJob` row shape)

Modelling conventions:
  * Python `datetime` values are modelled by the `DateTime` structure below
    (UTC only; `_ensure_utc` is the identity since every datetime handled by
    the core is normalized to UTC on entry; sub-second precision is elided,
    all timestamps in the verified scenarios are whole seconds).
  * Chronological order on datetimes is defined through `DateTime.absSeconds`,
    a days-from-civil encoding: for calendar-valid datetimes this coincides
    with Python datetime comparison, and timedelta comparisons become
    arithmetic on seconds.
  * Fallible Python code (raising `RecurrenceError` / `TypeError`) is
    modelled with `Except`.
  * Database tables are lists of rows; SQLAlchemy queries become list
    filters and finds.  Row identity (which SQLAlchemy tracks through object
    identity) is modelled with an explicit `id : Nat` field; `uuid4` id
    generation is modelled by a fresh-id counter threaded through inserts.
-/

namespace CCopilot

/-- UTC wall-clock timestamp: model of a (timezone-aware, UTC) Python
`datetime`.  Microseconds are elided. -/
structure DateTime where
  year : Nat
  month : Nat
  day : Nat
  hour : Nat
  minute : Nat
  sec : Nat
deriving DecidableEq, Repr

/-- Gregorian leap-year test, as used by Python `calendar.monthrange`. -/
def isLeap (y : Nat) : Bool :=
  y % 4 = 0 && (y % 100 ≠ 0 || y % 400 = 0)

/-- Number of days in a month: `calendar.monthrange(year, month)[1]`. -/
def monthLength (y m : Nat) : Nat :=
  if m = 2 then (if isLeap y then 29 else 28)
  else if m = 4 ∨ m = 6 ∨ m = 9 ∨ m = 11 then 30
  else 31

/-- The day after `d` (calendar roll-over of `timedelta(days=1)`). -/
def nextDay (d : DateTime) : DateTime :=
  if d.day < monthLength d.year d.month then { d with day := d.day + 1 }
  else if d.month < 12 then { d with month := d.month + 1, day := 1 }
  else { d with year := d.year + 1, month := 1, day := 1 }

/-- The day before `d` (calendar roll-over of `timedelta(days=-1)`). -/
def prevDay (d : DateTime) : DateTime :=
  if 1 < d.day then { d with day := d.day - 1 }
  else if 1 < d.month then { d with month := d.month - 1, day := monthLength d.year (d.month - 1) }
  else { d with year := d.year - 1, month := 12, day := 31 }

/-- `d + timedelta(days=n)`. -/
def addDays (d : DateTime) : Nat → DateTime
  | 0 => d
  | n + 1 => addDays (nextDay d) n

/-- `d - timedelta(days=n)`. -/
def subDays (d : DateTime) : Nat → DateTime
  | 0 => d
  | n + 1 => subDays (prevDay d) n

/-- `d + timedelta(hours=n)`. -/
def addHours (d : DateTime) (n : Nat) : DateTime :=
  addDays { d with hour := (d.hour + n) % 24 } ((d.hour + n) / 24)

/-- `d + timedelta(minutes=n)`. -/
def addMinutes (d : DateTime) (n : Nat) : DateTime :=
  addHours { d with minute := (d.minute + n) % 60 } ((d.minute + n) / 60)

/-- Day count of the civil date (days-from-civil; monotone in the
chronological order for calendar-valid dates, years ≥ 1 as in Python). -/
def daysFromCivil (y m d : Nat) : Nat :=
  let yp := if m ≤ 2 then y - 1 else y
  let mp := (m + 9) % 12
  yp * 365 + yp / 4 - yp / 100 + yp / 400 + (153 * mp + 2) / 5 + (d - 1)

/-- Seconds on a linear timeline.  For calendar-valid datetimes
`absSeconds` is strictly monotone in chronological order, so Python
datetime comparison and timedelta arithmetic are modelled on it. -/
def DateTime.absSeconds (d : DateTime) : Nat :=
  daysFromCivil d.year d.month d.day * 86400 + d.hour * 3600 + d.minute * 60 + d.sec

/-- Python `a <= b` on datetimes. -/
def DateTime.le (a b : DateTime) : Prop := a.absSeconds ≤ b.absSeconds

/-- Python `a < b` on datetimes. -/
def DateTime.lt (a b : DateTime) : Prop := a.absSeconds < b.absSeconds

instance (a b : DateTime) : Decidable (DateTime.le a b) :=
  Nat.decLe _ _

instance (a b : DateTime) : Decidable (DateTime.lt a b) :=
  Nat.decLt _ _

/-- `_start_of_day`: replace hour/minute/second/microsecond with 0. -/
def startOfDay (d : DateTime) : DateTime :=
  { d with hour := 0, minute := 0, sec := 0 }

/-- Python `(a - b).days` (floor division of the signed difference, as in
`timedelta` normalization). -/
def tdDays (a b : DateTime) : Int :=
  Int.fdiv ((a.absSeconds : Int) - (b.absSeconds : Int)) 86400

/-- `RequirementFrequencyEnum` from `src/api/models/requirements.py`. -/
inductive Frequency
  | ONE_TIME | BEFORE_EACH_USE | DAILY | WEEKLY | MONTHLY | QUARTERLY | ANNUAL
  | EVERY_N_DAYS | EVERY_N_WEEKS | EVERY_N_MONTHS
deriving DecidableEq, Repr

/-- `RequirementAnchorTypeEnum` from `src/api/models/requirements.py`. -/
inductive AnchorType
  | UPLOAD_DATE | ISSUE_DATE | CALENDAR | FIRST_COMPLETION | CUSTOM_DATE
deriving DecidableEq, Repr

/-- `RequirementStatusEnum` from `src/api/models/requirements.py`. -/
inductive RequirementStatus
  | OPEN | REVIEW | PENDING_REVIEW | READY | DONE | ARCHIVED
deriving DecidableEq, Repr

/-- `ReminderStatusEnum` from `src/api/models/reminder_jobs.py`. -/
inductive ReminderStatus
  | PENDING | SENT | FAILED
deriving DecidableEq, Repr

/-- A date-like value stored under one of the anchor payload date keys.
Python values are quotiented by the behaviour `_parse_anchor_datetime`
can observe:
  * `val d`     — a datetime object, or a string `fromisoformat` parses to `d`
                  (both truthy, both yield `d`);
  * `bad`       — a truthy value that raises: an unparseable non-empty string
                  or an unsupported type;
  * `falsyNone` — a stored Python `None` (falsy; selected as the final
                  element of the `or` chain it behaves like a missing value);
  * `falsyBad`  — another falsy value such as `""` or `0` (falsy; selected as
                  the final element of the `or` chain it raises). -/
inductive ADate
  | val (d : DateTime)
  | bad
  | falsyNone
  | falsyBad
deriving DecidableEq, Repr

/-- Python truthiness of a stored date-like value. -/
def ADate.truthy : ADate → Bool
  | .val _ => true
  | .bad => true
  | _ => false

/-- An interval-like value stored under `days` / `weeks` / `months` /
`interval`, quotiented by what `_read_interval` observes: truthiness and
the result of `int(raw)` (`none` when `int` raises).  E.g. `0 ↦ fv (some 0)`,
`"0" ↦ tv (some 0)`, `5 ↦ tv (some 5)`, `"" ↦ fv none`, `"x" ↦ tv none`. -/
inductive IVal
  | tv (r : Option Int)
  | fv (r : Option Int)
deriving DecidableEq, Repr

/-- Python truthiness of a stored interval-like value. -/
def IVal.truthy : IVal → Bool
  | .tv _ => true
  | .fv _ => false

/-- Result of `int(raw)` on a stored interval-like value. -/
def IVal.parseInt : IVal → Option Int
  | .tv r => r
  | .fv r => r

/-- The `anchor_value` JSON payload.  One optional slot per key the code
reads (`date`/`start`/`reference`/`reference_date`,
`days`/`weeks`/`months`/`interval`); `extra` records whether any other key
is present (it matters only for dict truthiness). -/
structure AnchorValue where
  date : Option ADate := none
  start : Option ADate := none
  reference : Option ADate := none
  reference_date : Option ADate := none
  days : Option IVal := none
  weeks : Option IVal := none
  months : Option IVal := none
  interval : Option IVal := none
  extra : Bool := false
deriving DecidableEq, Repr

/-- Python truthiness of the payload dict (`not anchor_value` is the
negation): true iff the dict has at least one key. -/
def AnchorValue.truthyDict (a : AnchorValue) : Bool :=
  a.date.isSome || a.start.isSome || a.reference.isSome || a.reference_date.isSome ||
  a.days.isSome || a.weeks.isSome || a.months.isSome || a.interval.isSome || a.extra

/-- `RecurrenceError` from `src/api/services/schedule.py`, split by raise
site. -/
inductive RecError
  | invalidAnchor
  | intervalNotInt
  | intervalNotPositive
  | monthIncrement
  | requiresInterval
  | advanceCap
  | unsupportedFrequency
deriving DecidableEq, Repr

/-- Python `a or b` for date-like slot values (missing key ↦ `none`, which
is falsy like a stored `None`). -/
def pyOrD (a b : Option ADate) : Option ADate :=
  if (match a with | some x => x.truthy | none => false) then a else b

/-- The key-selection chain of `_parse_anchor_datetime`:
`get("date") or get("start") or get("reference") or get("reference_date")`. -/
def selectDateValue (d : AnchorValue) : Option ADate :=
  pyOrD d.date (pyOrD d.start (pyOrD d.reference d.reference_date))

/-- `_parse_anchor_datetime` (`src/api/services/schedule.py` lines 27-49). -/
def parse_anchor_datetime (anchor_value : Option AnchorValue) : Except RecError (Option DateTime) :=
  match anchor_value with
  | none => .ok none
  | some d =>
    if ¬ d.truthyDict then .ok none
    else
      match selectDateValue d with
      | none => .ok none
      | some (.val dt) => .ok (some dt)
      | some .bad => .error .invalidAnchor
      | some .falsyNone => .ok none
      | some .falsyBad => .error .invalidAnchor

/-- `_derive_anchor_datetime` (`src/api/services/schedule.py` lines 52-67). -/
def derive_anchor_datetime (anchor_type : Option AnchorType)
    (anchor_value : Option AnchorValue) (fallback : DateTime)
    (last_completion : Option DateTime) : Except RecError DateTime := do
  let candidate ← parse_anchor_datetime anchor_value
  match candidate with
  | some c => .ok c
  | none =>
    match anchor_type, last_completion with
    | some .FIRST_COMPLETION, some lc => .ok lc
    | _, _ => .ok fallback

/-- Python `a or b` for interval-like slot values. -/
def pyOrI (a b : Option IVal) : Option IVal :=
  if (match a with | some x => x.truthy | none => false) then a else b

/-- `_read_interval` (`src/api/services/schedule.py` lines 70-82).  Returns
`some n` with `n ≥ 1` iff the source returns the positive integer `n`. -/
def read_interval (anchor_value : Option AnchorValue) (getKey : AnchorValue → Option IVal) :
    Except RecError (Option Nat) :=
  match anchor_value with
  | none => .ok none
  | some d =>
    if ¬ d.truthyDict then .ok none
    else
      match pyOrI (getKey d) d.interval with
      | none => .ok none
      | some v =>
        match v.parseInt with
        | none => .error .intervalNotInt
        | some n => if n ≤ 0 then .error .intervalNotPositive else .ok (some n.toNat)

/-- `_add_months` (`src/api/services/schedule.py` lines 85-95).  The source
increment is an `int`; every call site passes a positive value, so `Nat`
with the `months = 0` guard models the `months <= 0` check. -/
def add_months (base : DateTime) (months : Nat) : Except RecError DateTime :=
  if months = 0 then .error .monthIncrement
  else
    let total := base.year * 12 + (base.month - 1) + months
    let y := total / 12
    let m := total % 12 + 1
    let last := monthLength y m
    .ok { base with year := y, month := m, day := min base.day last }

/-- `_advance_once` (`src/api/services/schedule.py` lines 98-129). -/
def advance_once (current : DateTime) (frequency : Frequency)
    (anchor_value : Option AnchorValue) : Except RecError DateTime :=
  match frequency with
  | .DAILY => .ok (addDays current 1)
  | .WEEKLY => .ok (addDays current 7)
  | .MONTHLY => add_months current 1
  | .QUARTERLY => add_months current 3
  | .ANNUAL => add_months current 12
  | .EVERY_N_DAYS => do
    match ← read_interval anchor_value AnchorValue.days with
    | none => .error .requiresInterval
    | some n => .ok (addDays current n)
  | .EVERY_N_WEEKS => do
    match ← read_interval anchor_value AnchorValue.weeks with
    | none => .error .requiresInterval
    | some n => .ok (addDays current (7 * n))
  | .EVERY_N_MONTHS => do
    match ← read_interval anchor_value AnchorValue.months with
    | none => .error .requiresInterval
    | some n => add_months current n
  | .ONE_TIME => .error .unsupportedFrequency
  | .BEFORE_EACH_USE => .error .unsupportedFrequency

/-- The loop of `_advance_until_after`, with the remaining iteration budget
explicit (`max_loops = 512` in the source; the loop advances at most 512
times and raises if the candidate still has not passed the reference). -/
def advance_go (reference : DateTime) (frequency : Frequency)
    (anchor_value : Option AnchorValue) : Nat → DateTime → Except RecError DateTime
  | 0, c => if DateTime.le c reference then .error .advanceCap else .ok c
  | n + 1, c =>
    if DateTime.le c reference then do
      advance_go reference frequency anchor_value n (← advance_once c frequency anchor_value)
    else .ok c

/-- `_advance_until_after` (`src/api/services/schedule.py` lines 132-148). -/
def advance_until_after (start reference : DateTime) (frequency : Frequency)
    (anchor_value : Option AnchorValue) : Except RecError DateTime :=
  advance_go reference frequency anchor_value 512 start

/-- The tail of `compute_next_due` (`src/api/services/schedule.py` lines
195-212) handling every cadence other than ONE_TIME / BEFORE_EACH_USE:
empty-state shortcut, anchor derivation, future-anchor returns, and
advancement past the comparison point. -/
def compute_next_due_recurring (freq : Frequency) (anchor_type : Option AnchorType)
    (anchor_dict : AnchorValue) (last_completion : Option DateTime) (now : DateTime) :
    Except RecError (Option DateTime) :=
  if last_completion = none ∧ ¬ anchor_dict.truthyDict then .ok (some now)
  else do
    let anchor_dt ← derive_anchor_datetime anchor_type (some anchor_dict) now last_completion
    match last_completion with
    | none =>
      if DateTime.le now anchor_dt then .ok (some anchor_dt)
      else (advance_until_after anchor_dt now freq (some anchor_dict)).map some
    | some lc =>
      if DateTime.lt lc anchor_dt then .ok (some anchor_dt)
      else (advance_until_after anchor_dt lc freq (some anchor_dict)).map some

/-- `compute_next_due` (`src/api/services/schedule.py` lines 151-212).
`reference_time` is the `now` the source defaults to `datetime.now(UTC)`;
every verified call site passes it explicitly. -/
def compute_next_due (frequency : Option Frequency) (anchor_type : Option AnchorType)
    (anchor_value : Option AnchorValue) (last_completion : Option DateTime)
    (reference_time : DateTime) : Except RecError (Option DateTime) :=
  match frequency with
  | none => .ok none
  | some freq =>
    let now := reference_time
    let anchor_dict : AnchorValue := anchor_value.getD {}
    match freq with
    | .ONE_TIME =>
      match last_completion with
      | some _ => .ok none
      | none => do
        .ok (some (← derive_anchor_datetime anchor_type (some anchor_dict) now none))
    | .BEFORE_EACH_USE =>
      match last_completion with
      | none => .ok (some (startOfDay now))
      | some lc => .ok (some (startOfDay (addDays lc 1)))
    | _ => compute_next_due_recurring freq anchor_type anchor_dict last_completion now

/-! ## Data model rows (`src/api/models/*.py`)

UUID primary keys are modelled as `Nat`; `uuid4` generation for new
`ReminderJob` rows is modelled by the `next_job_id` counter in `Store`. -/

/-- One `RequirementHistory` row (`src/api/models/requirements.py`). -/
structure HistoryEntry where
  completed_by : Option String
  completed_at : DateTime
  notes : Option String
  photo_count : Nat
deriving DecidableEq, Repr

/-- A `Requirement` row (the columns the embedded code touches). -/
structure Requirement where
  id : Nat
  org_id : Nat
  document_id : Nat
  title_en : String
  title_es : String
  description_en : String
  description_es : String
  frequency : Option Frequency
  anchor_type : Option AnchorType
  anchor_value : AnchorValue
  due_date : Option DateTime
  next_due : Option DateTime
  status : RequirementStatus
  completed_at : Option DateTime
  history : List HistoryEntry
deriving DecidableEq, Repr

/-- `Requirement.mark_complete` (`src/api/models/requirements.py` lines
87-144).  `timestamp` is the `completed_at or datetime.now(UTC)` value; the
verified call sites pass it explicitly.  `timestamp.isoformat()` stored
under the `date` key parses back to `timestamp`, hence `ADate.val`. -/
def Requirement.mark_complete (req : Requirement) (completed_by : Option String)
    (notes : Option String) (photo_count : Nat) (timestamp : DateTime) :
    Requirement × HistoryEntry :=
  let entry : HistoryEntry :=
    { completed_by := completed_by, completed_at := timestamp, notes := notes,
      photo_count := photo_count }
  let req1 : Requirement := { req with history := req.history ++ [entry] }
  let anchor_value : AnchorValue :=
    if req1.anchor_type = some .FIRST_COMPLETION ∧ req1.anchor_value.date = none then
      { req1.anchor_value with date := some (.val timestamp) }
    else req1.anchor_value
  let req2 : Requirement := { req1 with anchor_value := anchor_value }
  let next_due : Option DateTime :=
    match compute_next_due req2.frequency req2.anchor_type (some req2.anchor_value)
        (some timestamp) timestamp with
    | .ok nd => nd
    | .error _ => none
  let req3 : Requirement := { req2 with completed_at := some timestamp }
  let req4 : Requirement :=
    if req3.frequency = none ∨ req3.frequency = some .ONE_TIME then
      { req3 with status := .DONE, next_due := none, due_date := none }
    else
      let req3b : Requirement := { req3 with next_due := next_due, due_date := next_due }
      if req3b.frequency = some .BEFORE_EACH_USE then { req3b with status := .READY }
      else { req3b with status := if next_due.isSome then .READY else .DONE }
  (req4, entry)

/-- The denormalized `payload` JSON of a `ReminderJob`, one shape per target
type (`queue_reminders` builds exactly these three dicts). -/
inductive Payload
  | requirementP (title_en title_es description_en description_es due_at : String)
  | permitP (pname : String) (permit_type : Option String) (expires_at : String)
  | trainingP (worker_name certification_type expires_at : String)
deriving DecidableEq, Repr

/-- `payload.get("title_en")`. -/
def Payload.get_title_en : Payload → Option String
  | .requirementP v _ _ _ _ => some v
  | _ => none

/-- `payload.get("title_es")`. -/
def Payload.get_title_es : Payload → Option String
  | .requirementP _ v _ _ _ => some v
  | _ => none

/-- `payload.get("description_en")`. -/
def Payload.get_description_en : Payload → Option String
  | .requirementP _ _ v _ _ => some v
  | _ => none

/-- `payload.get("description_es")`. -/
def Payload.get_description_es : Payload → Option String
  | .requirementP _ _ _ v _ => some v
  | _ => none

/-- `payload.get("name")`. -/
def Payload.get_name : Payload → Option String
  | .permitP v _ _ => some v
  | _ => none

/-- `payload.get("permit_type")` (the stored value may itself be `None`). -/
def Payload.get_permit_type : Payload → Option String
  | .permitP _ v _ => v
  | _ => none

/-- `payload.get("worker_name")`. -/
def Payload.get_worker_name : Payload → Option String
  | .trainingP v _ _ => some v
  | _ => none

/-- `payload.get("certification_type")`. -/
def Payload.get_certification_type : Payload → Option String
  | .trainingP _ v _ => some v
  | _ => none

/-- A `ReminderJob` row (`src/api/models/reminder_jobs.py` lines 29-66). -/
structure ReminderJob where
  id : Nat
  org_id : Nat
  target_type : String
  target_id : Nat
  target_due_at : Option DateTime
  reminder_offset_days : Nat
  run_at : DateTime
  recipient_email : String
  recipient_locale : String
  status : ReminderStatus
  attempts : Nat
  last_attempt_at : Option DateTime
  last_error : Option String
  payload : Payload
deriving DecidableEq, Repr

/-- An `Org` row (the columns the embedded code touches). -/
structure Org where
  id : Nat
  oname : String
deriving DecidableEq, Repr

/-- A `Permit` row (the columns the embedded code touches). -/
structure Permit where
  id : Nat
  org_id : Nat
  pname : String
  permit_type : Option String
  expires_at : Option DateTime
deriving DecidableEq, Repr

/-- A `TrainingCert` row (the columns the embedded code touches). -/
structure TrainingCert where
  id : Nat
  org_id : Nat
  worker_name : String
  certification_type : String
  expires_at : Option DateTime
deriving DecidableEq, Repr

/-- An `Event` row; the JSON `data` dict is flattened into optional fields
(for permits/certs the due timestamp is stored under the JSON key
`expires_at`, modelled by the same `due_at` slot). -/
structure Event where
  org_id : Nat
  document_id : Option Nat := none
  requirement_id : Option Nat := none
  etype : String
  target_type : String
  target_id : Nat
  recipient : Option String := none
  offset_days : Option Nat := none
  run_at : Option DateTime := none
  due_at : Option DateTime := none
  sent_at : Option DateTime := none
deriving DecidableEq, Repr

/-- An `OrgRequirementMetrics` row (`src/api/models/org_metrics.py`),
restricted to the counters the reminder pipeline increments. -/
structure MetricsRow where
  org_id : Nat
  reminders_scheduled_total : Nat := 0
  reminders_sent_total : Nat := 0
  reminders_failed_total : Nat := 0
deriving DecidableEq, Repr

/-- A user×membership join row, as read by `_collect_recipients`. -/
structure MemberRow where
  org_id : Nat
  email : String
  preferred_locale : String
  is_active : Bool
deriving DecidableEq, Repr

/-- `Recipient` from `src/api/services/reminders.py`. -/
structure Recipient where
  email : String
  locale : String
deriving DecidableEq, Repr

/-- The relational store the reminder services read and write. -/
structure Store where
  orgs : List Org
  members : List MemberRow
  requirements : List Requirement
  permits : List Permit
  certs : List TrainingCert
  jobs : List ReminderJob
  events : List Event
  metrics : List MetricsRow
  next_job_id : Nat
deriving DecidableEq, Repr

/-- Apply `f` to the first list element satisfying `p` (models an in-place
UPDATE of the row a `find`-style query returned). -/
def updateFirst (p : α → Bool) (f : α → α) : List α → List α
  | [] => []
  | x :: xs => if p x then f x :: xs else x :: updateFirst p f xs

/-- `_get_metrics_row` + in-place counter mutation from
`src/api/services/metrics.py`: update the org row, creating it first when
absent. -/
def bump_metrics (rows : List MetricsRow) (org : Nat) (f : MetricsRow → MetricsRow) :
    List MetricsRow :=
  if rows.any (fun r => r.org_id == org) then updateFirst (fun r => r.org_id == org) f rows
  else rows ++ [f { org_id := org }]

/-- `record_reminder_scheduled` (`src/api/services/metrics.py`). -/
def record_reminder_scheduled (rows : List MetricsRow) (org : Nat) : List MetricsRow :=
  bump_metrics rows org fun r =>
    { r with reminders_scheduled_total := r.reminders_scheduled_total + 1 }

/-- `record_reminder_sent` (`src/api/services/metrics.py`). -/
def record_reminder_sent (rows : List MetricsRow) (org : Nat) : List MetricsRow :=
  bump_metrics rows org fun r =>
    { r with reminders_sent_total := r.reminders_sent_total + 1 }

/-- `record_reminder_failed` (`src/api/services/metrics.py`). -/
def record_reminder_failed (rows : List MetricsRow) (org : Nat) : List MetricsRow :=
  bump_metrics rows org fun r =>
    { r with reminders_failed_total := r.reminders_failed_total + 1 }

/-- `_collect_recipients` (`src/api/services/reminders.py` lines 44-54):
active members of the org, deduplicated, locale defaulted with
`locale or "en"`. -/
def collect_recipients (store : Store) (org_id : Nat) : List Recipient :=
  (((store.members.filter fun m => m.org_id == org_id && m.is_active).map
      fun m => (m.email, m.preferred_locale)).dedup).map
    fun p => { email := p.1, locale := if p.2 = "" then "en" else p.2 }

/-- `_remove_stale_jobs` (`src/api/services/reminders.py` lines 57-68):
DELETE the PENDING jobs of the target, restricted (when `keep_due_at` is
given) to those whose `target_due_at` differs from it.  The SQL predicate
`target_due_at != :keep` is not satisfied by a NULL `target_due_at`
(three-valued logic), so such rows are kept. -/
def remove_stale_jobs (jobs : List ReminderJob) (target_type : String) (target_id : Nat)
    (keep_due_at : Option DateTime) : List ReminderJob :=
  jobs.filter fun j =>
    ! (j.target_type == target_type && j.target_id == target_id &&
       j.status == ReminderStatus.PENDING &&
       (match keep_due_at, j.target_due_at with
        | some k, some d => d != k
        | some _, none => false
        | none, _ => true))

/-- The uniqueness-key lookup predicate of `_upsert_job` (and the
`uq_reminder_jobs_target_offset` unique constraint columns). -/
def jobKeyMatch (j : ReminderJob) (target_type : String) (target_id : Nat)
    (due_at : DateTime) (offset_days : Nat) (email : String) : Bool :=
  j.target_type == target_type && j.target_id == target_id &&
  j.target_due_at == some due_at && j.reminder_offset_days == offset_days &&
  j.recipient_email == email

/-- The `run_at` computation and grace-window clamp of `_upsert_job` (lines
83-88): `run_at = due - offset` days; if already past, clamp to `now` when
within one hour, otherwise skip (`none`). -/
def upsert_run_at (due_at : DateTime) (offset_days : Nat) (now : DateTime) : Option DateTime :=
  let run_at0 := subDays due_at offset_days
  if DateTime.lt run_at0 now then
    if now.absSeconds - run_at0.absSeconds ≤ 3600 then some now else none
  else some run_at0

/-- The in-place refresh `_upsert_job` applies to an existing row (lines
102-109): resurrect a FAILED row to PENDING, then refresh
`run_at`/`payload`/`recipient_locale`. -/
def upsert_refresh (run_at : DateTime) (payload : Payload) (locale : String)
    (e : ReminderJob) : ReminderJob :=
  let e := if e.status = .FAILED then
      { e with status := .PENDING, attempts := 0, last_error := none }
    else e
  { e with run_at := run_at, payload := payload, recipient_locale := locale }

/-- The fresh PENDING row `_upsert_job` inserts (lines 112-123). -/
def new_reminder_job (next_id org_id : Nat) (target_type : String) (target_id : Nat)
    (due_at : DateTime) (offset_days : Nat) (run_at : DateTime) (recipient : Recipient)
    (payload : Payload) : ReminderJob :=
  { id := next_id, org_id := org_id, target_type := target_type, target_id := target_id,
    target_due_at := some due_at, reminder_offset_days := offset_days, run_at := run_at,
    recipient_email := recipient.email, recipient_locale := recipient.locale,
    status := .PENDING, attempts := 0, last_attempt_at := none, last_error := none,
    payload := payload }

/-- `_upsert_job` (`src/api/services/reminders.py` lines 71-124).  Returns
the updated job table, the updated fresh-id counter, and `some job` exactly
when a genuinely new row was inserted (the source returns the new ORM
object, and `None` on update or skip). -/
def upsert_job (jobs : List ReminderJob) (next_id : Nat) (org_id : Nat)
    (target_type : String) (target_id : Nat) (due_at : DateTime) (offset_days : Nat)
    (recipient : Recipient) (payload : Payload) (now : DateTime) :
    List ReminderJob × Nat × Option ReminderJob :=
  match upsert_run_at due_at offset_days now with
  | none => (jobs, next_id, none)
  | some run_at =>
    match jobs.find? (fun j => jobKeyMatch j target_type target_id due_at offset_days recipient.email) with
    | some _ =>
      (updateFirst
        (fun j => jobKeyMatch j target_type target_id due_at offset_days recipient.email)
        (upsert_refresh run_at payload recipient.locale) jobs, next_id, none)
    | none =>
      let job := new_reminder_job next_id org_id target_type target_id due_at offset_days
        run_at recipient payload
      (jobs ++ [job], next_id + 1, some job)

/-- `REMINDER_OFFSETS` (`src/api/services/reminders.py` line 35). -/
def REMINDER_OFFSETS : List Nat := [30, 7, 1]

/-- Zero-padded 2-digit decimal. -/
def pad2 (n : Nat) : String :=
  if n < 10 then "0" ++ toString n else toString n

/-- `strftime("%Y-%m-%d")`. -/
def fmtDate (d : DateTime) : String :=
  toString d.year ++ "-" ++ pad2 d.month ++ "-" ++ pad2 d.day

/-- `datetime.isoformat()` of a UTC-aware datetime. -/
def isoformat (d : DateTime) : String :=
  fmtDate d ++ "T" ++ pad2 d.hour ++ ":" ++ pad2 d.minute ++ ":" ++ pad2 d.sec ++ "+00:00"

/-- Errors of the reminder services: the `TypeError` raised by the
mismatched `compute_next_due(..., base_time=...)` call in
`queue_reminders`, and the `NoResultFound` of `_get_org`. -/
inductive PyError
  | typeErrorBaseTime
  | orgNotFound
deriving DecidableEq, Repr

/-- The call at `src/api/services/reminders.py` line 145:
`compute_next_due(req.next_due or req.due_date, req.frequency, base_time=now)`.
The `compute_next_due` imported from `schedule.py` has signature
`(frequency, anchor_type, anchor_value, *, last_completion=None,
reference_time=None)`: it takes no `base_time` keyword (and the required
`anchor_value` positional is missing), so Python raises `TypeError` at the
call site before any resolver logic runs. -/
def compute_next_due_base_time (next_due_or_due_date : Option DateTime)
    (frequency : Option Frequency) (base_time : DateTime) :
    Except PyError (Option DateTime) :=
  .error .typeErrorBaseTime

/-- The recipient × offset double loop shared by the three target sections
of `queue_reminders` (lines 164-195, 215-244, 264-293): upsert one job per
recipient per offset, and for each genuinely new job bump the `scheduled`
counter, append a `reminder_scheduled` event and record the metric. -/
def queue_jobs_for (store : Store) (scheduled : Nat) (org_id : Nat) (target_type : String)
    (target_id : Nat) (document_id : Option Nat) (requirement_id : Option Nat)
    (due : DateTime) (payload : Payload) (now : DateTime) (recipients : List Recipient) :
    Store × Nat :=
  recipients.foldl
    (fun acc recipient =>
      REMINDER_OFFSETS.foldl
        (fun acc offset =>
          let (store, scheduled) := acc
          let (jobs, nid, created) := upsert_job store.jobs store.next_job_id org_id
            target_type target_id due offset recipient payload now
          let store := { store with jobs := jobs, next_job_id := nid }
          match created with
          | none => (store, scheduled)
          | some job =>
            let ev : Event :=
              { org_id := org_id, document_id := document_id,
                requirement_id := requirement_id, etype := "reminder_scheduled",
                target_type := target_type, target_id := target_id,
                recipient := some recipient.email, offset_days := some offset,
                run_at := some job.run_at, due_at := some due }
            let store := { store with
                           events := store.events ++ [ev],
                           metrics := record_reminder_scheduled store.metrics org_id }
            (store, scheduled + 1))
        acc)
    (store, scheduled)

/-- The requirement-loop body of `queue_reminders` (lines 144-195).  The
first statement is the mismatched resolver call, which raises `TypeError`;
the rest of the body is transcribed from the source and is unreachable. -/
def queue_requirement (now : DateTime) (acc : Store × Nat) (req : Requirement) :
    Except PyError (Store × Nat) := do
  let (store, scheduled) := acc
  let next_due ← compute_next_due_base_time (req.next_due.orElse fun _ => req.due_date)
    req.frequency now
  let reqs := updateFirst (fun r => r.id == req.id) (fun r => { r with next_due := next_due })
    store.requirements
  let store := { store with requirements := reqs }
  match next_due with
  | none => .ok (store, scheduled)
  | some nd =>
    let recipients := collect_recipients store req.org_id
    if recipients.isEmpty then .ok (store, scheduled)
    else
      let store := { store with jobs := remove_stale_jobs store.jobs "requirement" req.id (some nd) }
      let payload : Payload := .requirementP req.title_en req.title_es req.description_en
        req.description_es (isoformat nd)
      .ok (queue_jobs_for store scheduled req.org_id "requirement" req.id
        (some req.document_id) (some req.id) nd payload now recipients)

/-- The permit-loop body of `queue_reminders` (lines 198-244). -/
def queue_permit (now : DateTime) (acc : Store × Nat) (permit : Permit) : Store × Nat :=
  match permit.expires_at with
  | none => acc
  | some due =>
    if DateTime.le due now then acc
    else
      let (store, scheduled) := acc
      let recipients := collect_recipients store permit.org_id
      if recipients.isEmpty then (store, scheduled)
      else
        let store := { store with jobs := remove_stale_jobs store.jobs "permit" permit.id (some due) }
        let payload : Payload := .permitP permit.pname permit.permit_type (isoformat due)
        queue_jobs_for store scheduled permit.org_id "permit" permit.id none none
          due payload now recipients

/-- The training-cert-loop body of `queue_reminders` (lines 247-293). -/
def queue_cert (now : DateTime) (acc : Store × Nat) (cert : TrainingCert) : Store × Nat :=
  match cert.expires_at with
  | none => acc
  | some due =>
    if DateTime.le due now then acc
    else
      let (store, scheduled) := acc
      let recipients := collect_recipients store cert.org_id
      if recipients.isEmpty then (store, scheduled)
      else
        let store := { store with jobs := remove_stale_jobs store.jobs "training_cert" cert.id (some due) }
        let payload : Payload := .trainingP cert.worker_name cert.certification_type (isoformat due)
        queue_jobs_for store scheduled cert.org_id "training_cert" cert.id none none
          due payload now recipients

/-- `queue_reminders` (`src/api/services/reminders.py` lines 127-295).
Returns the updated store and `stats["scheduled"]`.  The per-org recipient
cache of the source is a pure memoisation and is elided (members are not
mutated during a pass). -/
def queue_reminders (store : Store) (now : DateTime) : Except PyError (Store × Nat) := do
  let opens := store.requirements.filter fun r => r.status == RequirementStatus.OPEN
  let acc ← opens.foldlM (queue_requirement now) (store, 0)
  let acc := acc.1.permits.foldl (queue_permit now) acc
  let acc := acc.1.certs.foldl (queue_cert now) acc
  .ok acc

/-- `EmailMessage` from `src/api/services/email.py`.  The source names the
recipient field `to`, which is a reserved token here. -/
structure EmailMessage where
  eto : String
  subject : String
  text_body : String
  html_body : Option String
deriving DecidableEq, Repr

/-- `str(x)` of an optional string, as interpolated by an f-string
(`None` prints as `"None"`). -/
def pyStr (o : Option String) : String :=
  match o with
  | some s => s
  | none => "None"

/-- `x or dflt` for an optional string interpolated in an f-string. -/
def pyOrStr (o : Option String) (dflt : String) : String :=
  match o with
  | some s => if s = "" then dflt else s
  | none => dflt

/-- `_render_subject` (`src/api/services/reminders.py` lines 298-316). -/
def render_subject (target_type : String) (payload : Payload) (locale : String)
    (days_out : Int) : String :=
  let label :=
    if locale.startsWith "es" then
      if target_type = "requirement" then "Tarea de cumplimiento"
      else if target_type = "permit" then "Permiso"
      else if target_type = "training_cert" then "Certificación de formación"
      else "Recordatorio"
    else
      if target_type = "requirement" then "Compliance task"
      else if target_type = "permit" then "Permit"
      else if target_type = "training_cert" then "Training certification"
      else "Reminder"
  if days_out = 0 then
    if locale.startsWith "es" then label ++ " vence hoy" else label ++ " due today"
  else
    if locale.startsWith "es" then
      label ++ " vence en " ++ toString days_out ++ " día" ++
        (if days_out ≠ 1 then "s" else "")
    else
      label ++ " due in " ++ toString days_out ++ " day" ++
        (if days_out ≠ 1 then "s" else "")

/-- `_render_body` (`src/api/services/reminders.py` lines 319-383).
`app_url` is `settings.app_url`, passed as a parameter; target ids are
interpolated with `toString` (the source interpolates the UUID). -/
def render_body (org : Org) (job : ReminderJob) (payload : Payload) (locale : String)
    (app_url_setting : String) : String × Option String :=
  let app_url := app_url_setting.dropRightWhile fun c => c = '/'
  let due_str := match job.target_due_at with
    | some d => fmtDate d
    | none => ""
  let text :=
    if job.target_type = "requirement" then
      let title := pyStr (if locale.startsWith "es" then payload.get_title_es
        else payload.get_title_en)
      let description := pyStr (if locale.startsWith "es" then payload.get_description_es
        else payload.get_description_en)
      if locale.startsWith "es" then
        "Equipo de " ++ org.oname ++ ",\n\nLa tarea \x27" ++ title ++ "\x27 vence el " ++
          due_str ++ ".\nDescripción: " ++ description ++
          "\n\nRevisa y actualiza el estado en " ++ app_url ++ "/requirements/" ++
          toString job.target_id ++ "."
      else
        org.oname ++ " team,\n\nThe task \x27" ++ title ++ "\x27 is due on " ++ due_str ++
          ".\nDetails: " ++ description ++ "\n\nReview and update status at " ++ app_url ++
          "/requirements/" ++ toString job.target_id ++ "."
    else if job.target_type = "permit" then
      let pname := pyStr payload.get_name
      if locale.startsWith "es" then
        "Equipo de " ++ org.oname ++ ",\n\nEl permiso \x27" ++ pname ++ "\x27 expira el " ++
          due_str ++ ".\nTipo: " ++ pyOrStr payload.get_permit_type "Permiso" ++
          ".\n\nHaz seguimiento en " ++ app_url ++ "/permits."
      else
        org.oname ++ " team,\n\nPermit \x27" ++ pname ++ "\x27 expires on " ++ due_str ++
          ".\nType: " ++ pyOrStr payload.get_permit_type "Permit" ++
          ".\n\nReview details at " ++ app_url ++ "/permits."
    else
      let worker := pyStr payload.get_worker_name
      let cert_type := pyStr payload.get_certification_type
      if locale.startsWith "es" then
        "Equipo de " ++ org.oname ++ ",\n\nLa certificación \x27" ++ cert_type ++ "\x27 de " ++
          worker ++ " vence el " ++ due_str ++ ".\nActualiza los registros en " ++
          app_url ++ "/training."
      else
        org.oname ++ " team,\n\n" ++ worker ++ "\x27s \x27" ++ cert_type ++
          "\x27 certification expires on " ++ due_str ++ ".\nUpdate records at " ++
          app_url ++ "/training."
  (text, none)

/-- `Stats` returned by `dispatch_reminders` (`sent`/`failed` counters). -/
structure Stats where
  sent : Nat := 0
  failed : Nat := 0
deriving DecidableEq, Repr

/-- The target resolution of the dispatcher loop (lines 426-435): `none`
when the live target row no longer exists, otherwise `some document_id`
(the document id is populated only for requirement targets). -/
def dispatch_target (store : Store) (job : ReminderJob) : Option (Option Nat) :=
  if job.target_type = "requirement" then
    (store.requirements.find? fun r => r.id == job.target_id).map fun r => some r.document_id
  else if job.target_type = "permit" then
    (store.permits.find? fun p => p.id == job.target_id).map fun _ => none
  else
    (store.certs.find? fun c => c.id == job.target_id).map fun _ => none

/-- The per-job loop body of `dispatch_reminders`
(`src/api/services/reminders.py` lines 423-499).  `client` models the email
collaborator: `.error msg` models `send` raising with `str(exc) = msg`. -/
def dispatch_job (app_url : String) (client : EmailMessage → Except String Unit)
    (now : DateTime) (acc : Store × Stats) (job : ReminderJob) :
    Except PyError (Store × Stats) := do
  let (store, stats) := acc
  let org ←
    match store.orgs.find? fun o => o.id == job.org_id with
    | some o => Except.ok o
    | none => Except.error PyError.orgNotFound
  let locale := if job.recipient_locale = "" then "en" else job.recipient_locale
  match dispatch_target store job with
  | none =>
    let jobF := { job with status := ReminderStatus.FAILED,
                           last_attempt_at := some now,
                           last_error := some "Target missing" }
    let store := { store with
                   jobs := store.jobs.map fun j => if j.id == job.id then jobF else j,
                   metrics := record_reminder_failed store.metrics job.org_id }
    .ok (store, { stats with failed := stats.failed + 1 })
  | some document_id =>
    let days_out : Int := max (match job.target_due_at with
      | some d => tdDays d now
      | none => 0) 0
    let subject := render_subject job.target_type job.payload locale days_out
    let (text_body, html_body) := render_body org job job.payload locale app_url
    let message : EmailMessage :=
      { eto := job.recipient_email, subject := subject, text_body := text_body,
        html_body := html_body }
    match client message with
    | .ok _ =>
      let jobS := { job with status := ReminderStatus.SENT,
                             attempts := job.attempts + 1,
                             last_attempt_at := some now, last_error := none }
      let ev : Event :=
        { org_id := job.org_id, document_id := document_id,
          requirement_id := if job.target_type = "requirement" then some job.target_id else none,
          etype := "reminder_sent", target_type := job.target_type, target_id := job.target_id,
          recipient := some job.recipient_email, offset_days := some job.reminder_offset_days,
          sent_at := some now, due_at := job.target_due_at }
      let store := { store with
                     jobs := store.jobs.map fun j => if j.id == job.id then jobS else j,
                     metrics := record_reminder_sent store.metrics job.org_id,
                     events := store.events ++ [ev] }
      .ok (store, { stats with sent := stats.sent + 1 })
    | .error exc =>
      let jobE := { job with attempts := job.attempts + 1,
                             last_attempt_at := some now,
                             last_error := some exc }
      if jobE.attempts ≥ 3 then
        let jobF := { jobE with status := ReminderStatus.FAILED }
        let store := { store with
                       jobs := store.jobs.map fun j => if j.id == job.id then jobF else j,
                       metrics := record_reminder_failed store.metrics job.org_id }
        .ok (store, { stats with failed := stats.failed + 1 })
      else
        let jobR := { jobE with run_at := addMinutes now 5 }
        let store := { store with
                       jobs := store.jobs.map fun j => if j.id == job.id then jobR else j }
        .ok (store, { stats with failed := stats.failed + 1 })

/-- Insert a job into a `run_at`-sorted list, after earlier rows with the
same `run_at` (stability). -/
def insertByRunAt (j : ReminderJob) : List ReminderJob → List ReminderJob
  | [] => [j]
  | x :: xs => if DateTime.le x.run_at j.run_at then x :: insertByRunAt j xs else j :: x :: xs

/-- Stable insertion sort by ascending `run_at` (the `ORDER BY run_at ASC`
of the dispatch query; SQL leaves tie order unspecified, insertion keeps
table order). -/
def sortByRunAt (l : List ReminderJob) : List ReminderJob :=
  l.foldl (fun acc j => insertByRunAt j acc) []

/-- The batch claimed by `dispatch_reminders` (lines 401-411): PENDING jobs
whose `run_at` has elapsed, ordered by `run_at` ascending, first
`batch_size` rows. -/
def dispatch_batch (store : Store) (now : DateTime) (batch_size : Nat) : List ReminderJob :=
  (sortByRunAt (store.jobs.filter fun j =>
      j.status == ReminderStatus.PENDING && decide (DateTime.le j.run_at now))).take batch_size

/-- `dispatch_reminders` (`src/api/services/reminders.py` lines 390-501). -/
def dispatch_reminders (store : Store) (now : DateTime)
    (client : EmailMessage → Except String Unit) (app_url : String) (batch_size : Nat) :
    Except PyError (Store × Stats) :=
  let batch := dispatch_batch store now batch_size
  if batch.isEmpty then .ok (store, {})
  else batch.foldlM (dispatch_job app_url client now) (store, {})

/-! ## Statement helpers and concrete scenarios -/

/-- Number of job rows carrying a given uniqueness key. -/
def countKey (jobs : List ReminderJob) (target_type : String) (target_id : Nat)
    (due_at : DateTime) (offset_days : Nat) (email : String) : Nat :=
  (jobs.filter fun j => jobKeyMatch j target_type target_id due_at offset_days email).length

/-- The interval-like value `_read_interval` ends up inspecting (its `raw`
after the `get(key) or get("interval")` chain), `none` when `raw is None`
or the payload dict is falsy. -/
def selected_interval (anchor_value : Option AnchorValue)
    (getKey : AnchorValue → Option IVal) : Option IVal :=
  match anchor_value with
  | none => none
  | some d => if ¬ d.truthyDict then none else pyOrI (getKey d) d.interval

/-- Spec-side characterization (following the claim wording): the required
interval is absent, non-integer, or non-positive. -/
def interval_missing_or_bad (anchor_value : Option AnchorValue)
    (getKey : AnchorValue → Option IVal) : Prop :=
  match selected_interval anchor_value getKey with
  | none => True
  | some v =>
    match v.parseInt with
    | none => True
    | some n => n ≤ 0

/-- Whether an `Except` value models a raised exception. -/
def isErr : Except ε α → Bool
  | .error _ => true
  | .ok _ => false

/-- The anchor payload `mark_complete` hands to the resolver (with the
FIRST_COMPLETION `date` bootstrap applied). -/
def mark_complete_anchor (req : Requirement) (timestamp : DateTime) : AnchorValue :=
  if req.anchor_type = some .FIRST_COMPLETION ∧ req.anchor_value.date = none then
    { req.anchor_value with date := some (.val timestamp) }
  else req.anchor_value

/-- The next-due value `mark_complete` computes: the resolver output with a
raised `RecurrenceError` caught and turned into "no next occurrence". -/
def mark_complete_next_due (req : Requirement) (timestamp : DateTime) : Option DateTime :=
  match compute_next_due req.frequency req.anchor_type (some (mark_complete_anchor req timestamp))
      (some timestamp) timestamp with
  | .ok nd => nd
  | .error _ => none

/-- Invariant: every SENT job has a positive attempt count and a cleared
error. -/
def SentInv (jobs : List ReminderJob) : Prop :=
  ∀ j ∈ jobs, j.status = .SENT → 1 ≤ j.attempts ∧ j.last_error = none

/-- Shorthand: a midnight UTC timestamp. -/
def dtc (y m d : Nat) : DateTime :=
  ⟨y, m, d, 0, 0, 0⟩

/-- Shorthand: a timestamp with hour and minute. -/
def dtt (y m d hh mi : Nat) : DateTime :=
  ⟨y, m, d, hh, mi, 0⟩

/-- An email client whose `send` always succeeds. -/
def ok_client : EmailMessage → Except String Unit := fun _ => .ok ()

/-- An email client whose `send` always raises (message `"boom"`). -/
def bad_client : EmailMessage → Except String Unit := fun _ => .error "boom"

/-- The open weekly requirement of the end-to-end scenario: weekly cadence,
anchor 2025-01-01T00:00:00Z, next due 2025-01-08. -/
def c1_req : Requirement :=
  { id := 10, org_id := 1, document_id := 5,
    title_en := "Test task", title_es := "Tarea de prueba",
    description_en := "Do the thing", description_es := "Haz la cosa",
    frequency := some .WEEKLY, anchor_type := some .UPLOAD_DATE,
    anchor_value := { date := some (.val (dtc 2025 1 1)) },
    due_date := some (dtc 2025 1 8), next_due := some (dtc 2025 1 8),
    status := .OPEN, completed_at := none, history := [] }

/-- The end-to-end scenario store: one org, one active recipient, one OPEN
weekly requirement. -/
def c1_store : Store :=
  { orgs := [⟨1, "QA Electric"⟩],
    members := [⟨1, "owner@example.com", "en", true⟩],
    requirements := [c1_req], permits := [], certs := [], jobs := [],
    events := [], metrics := [], next_job_id := 100 }

/-- The recipient used in concrete materializer scenarios. -/
def c_recipient : Recipient :=
  { email := "owner@example.com", locale := "en" }

/-- A requirement payload used in concrete materializer scenarios. -/
def c_payload : Payload :=
  .requirementP "Test task" "Tarea de prueba" "Do the thing" "Haz la cosa"
    "2025-01-08T00:00:00+00:00"

/-- A SENT historical job for the permit occurrence due 2025-03-02, with a
stale `run_at` (offset 30 would put it at 2025-01-31). -/
def c4_sent_job : ReminderJob :=
  { id := 50, org_id := 1, target_type := "permit", target_id := 20,
    target_due_at := some (dtc 2025 3 2), reminder_offset_days := 30,
    run_at := dtc 2025 1 15, recipient_email := "owner@example.com",
    recipient_locale := "en", status := .SENT, attempts := 1,
    last_attempt_at := some (dtc 2025 1 15), last_error := none,
    payload := .permitP "City Master Permit" (some "License") "old-iso" }

/-- Store for the materializer-mutation counterexample: a permit expiring
2025-03-02 and an already-SENT job for that same occurrence/offset. -/
def c4_store : Store :=
  { orgs := [⟨1, "QA Electric"⟩],
    members := [⟨1, "owner@example.com", "en", true⟩],
    requirements := [],
    permits := [{ id := 20, org_id := 1, pname := "City Master Permit",
                  permit_type := some "License", expires_at := some (dtc 2025 3 2) }],
    certs := [], jobs := [c4_sent_job], events := [], metrics := [],
    next_job_id := 100 }

/-- A PENDING reminder job for an existing permit, due for dispatch. -/
def c6_job : ReminderJob :=
  { id := 40, org_id := 1, target_type := "permit", target_id := 20,
    target_due_at := some (dtc 2025 3 2), reminder_offset_days := 30,
    run_at := dtc 2025 1 31, recipient_email := "owner@example.com",
    recipient_locale := "en", status := .PENDING, attempts := 0,
    last_attempt_at := none, last_error := none,
    payload := .permitP "City Master Permit" (some "License") "2025-03-02T00:00:00+00:00" }

/-- Store for the dispatcher retry scenario: one org, one live permit
target, one claimed PENDING job. -/
def c6_store : Store :=
  { orgs := [⟨1, "QA Electric"⟩],
    members := [⟨1, "owner@example.com", "en", true⟩],
    requirements := [],
    permits := [{ id := 20, org_id := 1, pname := "City Master Permit",
                  permit_type := some "License", expires_at := some (dtc 2025 3 2) }],
    certs := [], jobs := [c6_job], events := [], metrics := [],
    next_job_id := 100 }

/-- Three consecutive dispatch passes over `c6_store` with a client whose
`send` raises every time (passes spaced past the 5-minute backoff). -/
def c6_three_passes : Except PyError (Store × Stats) := do
  let r1 ← dispatch_reminders c6_store (dtc 2025 1 31) bad_client "http://app" 50
  let r2 ← dispatch_reminders r1.1 (dtt 2025 1 31 0 10) bad_client "http://app" 50
  dispatch_reminders r2.1 (dtt 2025 1 31 0 20) bad_client "http://app" 50

/-! ## Theorems -/

/-- C1: in the end-to-end scenario (one OPEN weekly requirement, anchor
2025-01-01T00:00:00Z, next due 2025-01-08, one active recipient, reference
time 2025-01-01), `queue_reminders` does not return `{scheduled: 2}`: its
resolver call passes a `base_time` keyword that `compute_next_due` does not
accept, so the pass raises `TypeError` as soon as it processes the open
requirement. -/
theorem c1_queue_reminders_raises_typeerror :
    queue_reminders c1_store (dtc 2025 1 1) = .error .typeErrorBaseTime := by
  rfl

/-- C7 counterexample: with no last completion and an anchor payload whose
`date` value is a truthy unparseable string, a ONE_TIME call raises
`RecurrenceError` instead of returning an anchor timestamp, refuting the
claim that every completion-free call returns the anchor (or reference)
timestamp. -/
theorem c7_counterexample :
    compute_next_due (some .ONE_TIME) (some .CUSTOM_DATE)
      (some { date := some .bad }) none (dtc 2024 1 1) = .error .invalidAnchor := by
  rfl

/-- C7 (amended): for ONE_TIME, every call with a last completion returns
null; every call without one returns the payload's parsed date when it
parses, the reference time when the payload yields no date value, and
raises `RecurrenceError` when the payload's date value is malformed. -/
theorem c7_one_time_resolution :
    (∀ (ft : Option AnchorType) (av : Option AnchorValue) (lc ref : DateTime),
      compute_next_due (some .ONE_TIME) ft av (some lc) ref = .ok none)
    ∧ (∀ (ft : Option AnchorType) (av : Option AnchorValue) (ref d : DateTime),
      parse_anchor_datetime (some (av.getD {})) = .ok (some d) →
      compute_next_due (some .ONE_TIME) ft av none ref = .ok (some d))
    ∧ (∀ (ft : Option AnchorType) (av : Option AnchorValue) (ref : DateTime),
      parse_anchor_datetime (some (av.getD {})) = .ok none →
      compute_next_due (some .ONE_TIME) ft av none ref = .ok (some ref))
    ∧ (∀ (ft : Option AnchorType) (av : Option AnchorValue) (ref : DateTime) (e : RecError),
      parse_anchor_datetime (some (av.getD {})) = .error e →
      compute_next_due (some .ONE_TIME) ft av none ref = .error e) := by
  refine ⟨fun ft av lc ref => rfl, ?_, ?_, ?_⟩
  · intro ft av ref d h
    simp only [compute_next_due, derive_anchor_datetime, h, Bind.bind, Except.bind]
  · intro ft av ref h
    simp only [compute_next_due, derive_anchor_datetime, h, Bind.bind, Except.bind]
  · intro ft av ref e h
    simp only [compute_next_due, derive_anchor_datetime, h, Bind.bind, Except.bind]

/-- C7 witness: concrete instance of the amended theorem — ONE_TIME with a
parsed anchor date 2024-01-15 and no completion returns that date. -/
theorem c7_witness :
    compute_next_due (some .ONE_TIME) (some .CUSTOM_DATE)
      (some { date := some (.val (dtc 2024 1 15)) }) none (dtc 2024 1 1) =
      .ok (some (dtc 2024 1 15)) :=
  c7_one_time_resolution.2.1 (some .CUSTOM_DATE)
    (some { date := some (.val (dtc 2024 1 15)) }) (dtc 2024 1 1) (dtc 2024 1 15) rfl

/-- C5: month addition computes the target year/month by integer arithmetic
on `year*12 + month` and clamps the day to the target months length (keeping
the time of day), and consequently the claimed scenario — anchor 2024-01-31,
EVERY_N_MONTHS with interval 2, completion 2024-03-05 — yields 2024-03-31
(truncation, not overflow into April). -/
theorem c5_add_months_clamps :
    (∀ (base : DateTime) (k : Nat) (r : DateTime), 1 ≤ k → add_months base k = .ok r →
      r.day = min base.day (monthLength r.year r.month) ∧
      r.year * 12 + (r.month - 1) = base.year * 12 + (base.month - 1) + k ∧
      1 ≤ r.month ∧ r.month ≤ 12 ∧
      r.hour = base.hour ∧ r.minute = base.minute ∧ r.sec = base.sec)
    ∧ compute_next_due (some .EVERY_N_MONTHS) (some .CUSTOM_DATE)
        (some { date := some (.val (dtc 2024 1 31)), interval := some (.tv (some 2)) })
        (some (dtc 2024 3 5)) (dtc 2024 3 5) = .ok (some (dtc 2024 3 31)) := by
  constructor
  · intro base k r hk h
    unfold add_months at h
    rw [if_neg (by omega)] at h
    injection h with h
    subst h
    have hdm := Nat.div_add_mod (base.year * 12 + (base.month - 1) + k) 12
    have hml := Nat.mod_lt (base.year * 12 + (base.month - 1) + k) (show 0 < 12 by norm_num)
    refine ⟨rfl, ?_, ?_, ?_, rfl, rfl, rfl⟩ <;> simp only <;> omega
  · rfl

/-- C5 witness: the general clause applied at the scenario month step —
2024-01-31 advanced by 2 months lands on 2024-03-31 with the day clamped to
March's length. -/
theorem c5_witness :
    (dtc 2024 3 31).day = min (dtc 2024 1 31).day (monthLength 2024 3) ∧
      (dtc 2024 3 31).year * 12 + ((dtc 2024 3 31).month - 1) =
        (dtc 2024 1 31).year * 12 + ((dtc 2024 1 31).month - 1) + 2 := by
  have h := c5_add_months_clamps.1 (dtc 2024 1 31) 2 (dtc 2024 3 31) (by norm_num) rfl
  exact ⟨h.1, h.2.1⟩

/-- Unfolding lemma: `_read_interval` fully determined by the selected raw
value. -/
theorem read_interval_eq (av : Option AnchorValue) (getKey : AnchorValue → Option IVal) :
    read_interval av getKey =
      match selected_interval av getKey with
      | none => .ok none
      | some v =>
        match v.parseInt with
        | none => .error .intervalNotInt
        | some n => if n ≤ 0 then .error .intervalNotPositive else .ok (some n.toNat) := by
  rcases av with _ | d
  · rfl
  · by_cases htr : d.truthyDict <;> simp [read_interval, selected_interval, htr]

/-- C9: for the N-unit cadences, advancement raises `RecurrenceError`
exactly when the interval value it reads from the anchor payload is absent,
non-integer, or non-positive; in particular EVERY_N_DAYS with a payload
holding only a date raises. -/
theorem c9_interval_errors :
    (∀ (c : DateTime) (av : Option AnchorValue),
      isErr (advance_once c .EVERY_N_DAYS av) = true ↔
        interval_missing_or_bad av AnchorValue.days)
    ∧ (∀ (c : DateTime) (av : Option AnchorValue),
      isErr (advance_once c .EVERY_N_WEEKS av) = true ↔
        interval_missing_or_bad av AnchorValue.weeks)
    ∧ (∀ (c : DateTime) (av : Option AnchorValue),
      isErr (advance_once c .EVERY_N_MONTHS av) = true ↔
        interval_missing_or_bad av AnchorValue.months)
    ∧ (∀ c : DateTime, advance_once c .EVERY_N_DAYS
        (some { date := some (.val (dtc 2024 5 1)) }) = .error .requiresInterval) := by
  refine ⟨?_, ?_, ?_, fun c => rfl⟩ <;> intro c av <;>
    simp only [advance_once, read_interval_eq, interval_missing_or_bad, Bind.bind,
      Except.bind] <;>
    rcases hsel : selected_interval av _ with _ | v
  all_goals
    first
      | (simp [isErr]; done)
      | (rcases hp : v.parseInt with _ | n
         · simp [hp, isErr]
         · by_cases hn : n ≤ 0
           · simp [hp, hn, isErr]
           · simp only [hp, hn, reduceIte]
             first
               | (simp [isErr]; done)
               | (rw [add_months, if_neg (by omega)]; simp [isErr]))

/-- C9 witness: an entirely empty anchor payload makes EVERY_N_DAYS
advancement raise. -/
theorem c9_witness :
    isErr (advance_once (dtc 2024 1 1) .EVERY_N_DAYS none) = true :=
  (c9_interval_errors.1 (dtc 2024 1 1) none).mpr (by trivial)

/-- Zero matching rows means the uniqueness-key lookup finds nothing. -/
theorem filter_length_zero_iff {α} {P : α → Bool} {l : List α} :
    (l.filter P).length = 0 ↔ ∀ x ∈ l, ¬ P x = true := by
  rw [List.length_eq_zero, List.filter_eq_nil_iff]

/-- Searching past a prefix with no match. -/
theorem find?_append_none {α} {P : α → Bool} {l₁ l₂ : List α} (h : l₁.find? P = none) :
    (l₁ ++ l₂).find? P = l₂.find? P := by
  induction l₁ with
  | nil => rfl
  | cons a t ih =>
    by_cases hpa : P a = true
    · rw [List.find?_cons_of_pos _ hpa] at h
      exact absurd h (by simp)
    · have hpa' : ¬ P a = true := hpa
      rw [List.find?_cons_of_neg _ hpa'] at h
      rw [List.cons_append, List.find?_cons_of_neg _ hpa']
      exact ih h

/-- Updating the first matching row in place preserves the number of
matching rows, provided the update keeps the row matching. -/
theorem updateFirst_filter_length {α} {P : α → Bool} {f : α → α}
    (hf : ∀ x, P x = true → P (f x) = true) :
    ∀ l : List α, ((updateFirst P f l).filter P).length = (l.filter P).length := by
  intro l
  induction l with
  | nil => rfl
  | cons a t ih =>
    unfold updateFirst
    by_cases hpa : P a = true
    · simp [hpa, hf a hpa, List.filter_cons]
    · simp [hpa, List.filter_cons, ih]

set_option maxRecDepth 8000 in
/-- C2 counterexample: for offset 30, due 2025-01-01 and reference time
2025-02-01 the reminder window has long passed, so materializing the same
combination twice yields zero rows, not the claimed exactly-one row. -/
theorem c2_counterexample :
    countKey (upsert_job (upsert_job [] 0 1 "requirement" 10 (dtc 2025 1 1) 30 c_recipient
        c_payload (dtc 2025 2 1)).1
        (upsert_job [] 0 1 "requirement" 10 (dtc 2025 1 1) 30 c_recipient c_payload
          (dtc 2025 2 1)).2.1
        1 "requirement" 10 (dtc 2025 1 1) 30 c_recipient c_payload (dtc 2025 2 1)).1
      "requirement" 10 (dtc 2025 1 1) 30 c_recipient.email = 0 := by
  decide

/-- C2 (amended): starting from a table with no row for the key, if the
first materialization creates a job (the reminder window has not passed),
re-materializing the same combination leaves exactly one row for the key
and reports no new job; if the first pass skipped (window passed), no row
exists at all; and any single upsert preserves "at most one row per key". -/
theorem c2_upsert_idempotent :
    (∀ (jobs₀ : List ReminderJob) (nid org : Nat) (tt : String) (tid : Nat) (due : DateTime)
      (off : Nat) (r : Recipient) (p : Payload) (now : DateTime),
      countKey jobs₀ tt tid due off r.email = 0 →
      ((upsert_job jobs₀ nid org tt tid due off r p now).2.2.isSome = true →
        countKey (upsert_job (upsert_job jobs₀ nid org tt tid due off r p now).1
            (upsert_job jobs₀ nid org tt tid due off r p now).2.1 org tt tid due off r p
            now).1 tt tid due off r.email = 1 ∧
        (upsert_job (upsert_job jobs₀ nid org tt tid due off r p now).1
            (upsert_job jobs₀ nid org tt tid due off r p now).2.1 org tt tid due off r p
            now).2.2 = none) ∧
      ((upsert_job jobs₀ nid org tt tid due off r p now).2.2 = none →
        countKey (upsert_job jobs₀ nid org tt tid due off r p now).1 tt tid due off
          r.email = 0))
    ∧ (∀ (jobs : List ReminderJob) (nid org : Nat) (tt : String) (tid : Nat) (due : DateTime)
      (off : Nat) (r : Recipient) (p : Payload) (now : DateTime),
      countKey jobs tt tid due off r.email ≤ 1 →
      countKey (upsert_job jobs nid org tt tid due off r p now).1 tt tid due off
        r.email ≤ 1) := by
  have hkeep : ∀ (tt : String) (tid : Nat) (due : DateTime) (off : Nat) (email : String)
      (ra : DateTime) (p : Payload) (loc : String) (x : ReminderJob),
      jobKeyMatch x tt tid due off email = true →
      jobKeyMatch (upsert_refresh ra p loc x) tt tid due off email = true := by
    intro tt tid due off email ra p loc x hx
    by_cases hs : x.status = ReminderStatus.FAILED <;>
      simp only [upsert_refresh, hs, if_true, if_false, reduceIte] <;> exact hx
  have hPJ : ∀ (nid org : Nat) (tt : String) (tid : Nat) (due : DateTime) (off : Nat)
      (ra : DateTime) (r : Recipient) (p : Payload),
      jobKeyMatch (new_reminder_job nid org tt tid due off ra r p) tt tid due off
        r.email = true := by
    intro nid org tt tid due off ra r p
    simp [jobKeyMatch, new_reminder_job]
  constructor
  · intro jobs₀ nid org tt tid due off r p now h0
    have hfind : jobs₀.find? (fun j => jobKeyMatch j tt tid due off r.email) = none := by
      rw [List.find?_eq_none]
      intro x hx
      exact (filter_length_zero_iff.mp h0) x hx
    have hnil : jobs₀.filter (fun j => jobKeyMatch j tt tid due off r.email) = [] := by
      rw [List.filter_eq_nil_iff]
      exact fun x hx => (filter_length_zero_iff.mp h0) x hx
    rcases hro : upsert_run_at due off now with _ | ra
    · refine ⟨fun hs => ?_, fun _ => ?_⟩
      · simp [upsert_job, hro] at hs
      · simp only [upsert_job, hro]
        exact h0
    · have hstep : upsert_job jobs₀ nid org tt tid due off r p now
          = (jobs₀ ++ [new_reminder_job nid org tt tid due off ra r p], nid + 1,
             some (new_reminder_job nid org tt tid due off ra r p)) := by
        simp only [upsert_job, hro, hfind]
      have hfind2 : (jobs₀ ++ [new_reminder_job nid org tt tid due off ra r p]).find?
          (fun j => jobKeyMatch j tt tid due off r.email)
          = some (new_reminder_job nid org tt tid due off ra r p) := by
        rw [find?_append_none hfind]
        exact List.find?_cons_of_pos _ (hPJ nid org tt tid due off ra r p)
      refine ⟨fun _ => ?_, fun hc => ?_⟩
      · rw [hstep]
        simp only [upsert_job, hro, hfind2]
        refine ⟨?_, by trivial⟩
        simp only [countKey]
        rw [updateFirst_filter_length (hkeep tt tid due off r.email ra p r.locale)]
        rw [List.filter_append, hnil]
        simp [hPJ nid org tt tid due off ra r p]
      · rw [hstep] at hc
        exact absurd hc (by simp)
  · intro jobs nid org tt tid due off r p now h0
    rcases hro : upsert_run_at due off now with _ | ra
    · simp only [upsert_job, hro]
      exact h0
    · rcases hf : jobs.find? (fun j => jobKeyMatch j tt tid due off r.email) with _ | e
      · have hnil : jobs.filter (fun j => jobKeyMatch j tt tid due off r.email) = [] := by
          rw [List.filter_eq_nil_iff]
          exact List.find?_eq_none.mp hf
        simp only [upsert_job, hro, hf, countKey]
        rw [List.filter_append, hnil]
        simp [hPJ nid org tt tid due off ra r p]
      · simp only [upsert_job, hro, hf, countKey] at h0 ⊢
        rw [updateFirst_filter_length (hkeep tt tid due off r.email ra p r.locale)]
        exact h0

/-- C2 witness: the successful scenario — offset 7, due 2025-01-08,
reference 2025-01-01 — materialized twice leaves exactly one row and the
second pass creates nothing. -/
theorem c2_witness :
    countKey (upsert_job (upsert_job [] 0 1 "requirement" 10 (dtc 2025 1 8) 7 c_recipient
        c_payload (dtc 2025 1 1)).1
        (upsert_job [] 0 1 "requirement" 10 (dtc 2025 1 8) 7 c_recipient c_payload
          (dtc 2025 1 1)).2.1
        1 "requirement" 10 (dtc 2025 1 8) 7 c_recipient c_payload (dtc 2025 1 1)).1
      "requirement" 10 (dtc 2025 1 8) 7 c_recipient.email = 1 ∧
    (upsert_job (upsert_job [] 0 1 "requirement" 10 (dtc 2025 1 8) 7 c_recipient
        c_payload (dtc 2025 1 1)).1
        (upsert_job [] 0 1 "requirement" 10 (dtc 2025 1 8) 7 c_recipient c_payload
          (dtc 2025 1 1)).2.1
        1 "requirement" 10 (dtc 2025 1 8) 7 c_recipient c_payload (dtc 2025 1 1)).2.2
      = none :=
  (c2_upsert_idempotent.1 [] 0 1 "requirement" 10 (dtc 2025 1 8) 7 c_recipient c_payload
    (dtc 2025 1 1) rfl).1 rfl

/-- The advancement loop only ever returns a candidate strictly past the
reference point (the loop guard is its postcondition). -/
theorem advance_go_gt (ref : DateTime) (f : Frequency) (av : Option AnchorValue) :
    ∀ (n : Nat) (c R : DateTime), advance_go ref f av n c = .ok R → DateTime.lt ref R := by
  intro n
  induction n with
  | zero =>
    intro c R h
    by_cases hle : DateTime.le c ref
    · simp [advance_go, hle] at h
    · simp only [advance_go, hle, if_false, reduceIte] at h
      injection h with h
      subst h
      exact Nat.lt_of_not_le hle
  | succ n ih =>
    intro c R h
    by_cases hle : DateTime.le c ref
    · simp only [advance_go, hle, if_true, reduceIte] at h
      rcases hadv : advance_once c f av with e | cn
      · simp [hadv, Bind.bind, Except.bind] at h
      · simp only [hadv, Bind.bind, Except.bind] at h
        exact ih cn R h
    · simp only [advance_go, hle, if_false, reduceIte] at h
      injection h with h
      subst h
      exact Nat.lt_of_not_le hle

/-- `_advance_until_after` postcondition, stated at the wrapper. -/
theorem advance_until_after_gt (start ref : DateTime) (f : Frequency)
    (av : Option AnchorValue) (R : DateTime) (h : advance_until_after start ref f av = .ok R) :
    DateTime.lt ref R :=
  advance_go_gt ref f av 512 start R h

/-- With a falsy anchor payload and no completion, the derived anchor is the
fallback. -/
theorem derive_fallback (ft : Option AnchorType) (d : AnchorValue) (fb : DateTime)
    (htr : ¬ d.truthyDict = true) : derive_anchor_datetime ft (some d) fb none = .ok fb := by
  have hp : parse_anchor_datetime (some d) = .ok none := by
    simp [parse_anchor_datetime, htr]
  simp only [derive_anchor_datetime, hp, Bind.bind, Except.bind]

/-- C3: for every cadence except ONE_TIME and BEFORE_EACH_USE, every anchor
payload, and every completion/reference choice, a non-null result R is
either strictly past the comparison point (last completion, else reference
time) or is exactly the derived anchor date, itself not yet past the
comparison point. -/
theorem c3_progress :
    ∀ (f : Frequency) (ft : Option AnchorType) (av : Option AnchorValue)
      (lc : Option DateTime) (ref R : DateTime),
    f ≠ .ONE_TIME → f ≠ .BEFORE_EACH_USE →
    compute_next_due (some f) ft av lc ref = .ok (some R) →
    DateTime.lt (lc.getD ref) R ∨
      (derive_anchor_datetime ft (some (av.getD {})) ref lc = .ok R ∧
        DateTime.le (lc.getD ref) R) := by
  intro f ft av lc ref R h1 h2 h
  have hgen : compute_next_due (some f) ft av lc ref =
      compute_next_due_recurring f ft (av.getD {}) lc ref := by
    cases f <;> first | (exact absurd rfl h1) | (exact absurd rfl h2) | rfl
  rw [hgen] at h
  clear hgen
  rcases lc with _ | l
  all_goals rw [compute_next_due_recurring] at h
  · split at h
    · rename_i hcond
      injection h with h
      injection h with h
      subst h
      right
      exact ⟨derive_fallback ft (av.getD {}) ref hcond.2, Nat.le_refl _⟩
    · rcases hd : derive_anchor_datetime ft (some (av.getD {})) ref none with e | A
      · simp [hd, Bind.bind, Except.bind] at h
      · simp only [hd, Bind.bind, Except.bind] at h
        split at h
        · rename_i hle
          injection h with h
          injection h with h
          subst h
          right
          exact ⟨rfl, hle⟩
        · rcases hadv : advance_until_after A ref f (some (av.getD {})) with e | W
          · simp [hadv, Except.map] at h
          · simp only [hadv, Except.map] at h
            injection h with h
            injection h with h
            subst h
            left
            simpa using advance_until_after_gt A ref f (some (av.getD {})) W hadv
  · split at h
    · rename_i hcond
      exact absurd hcond.1 (by simp)
    · rcases hd : derive_anchor_datetime ft (some (av.getD {})) ref (some l) with e | A
      · simp [hd, Bind.bind, Except.bind] at h
      · simp only [hd, Bind.bind, Except.bind] at h
        split at h
        · rename_i hlt
          injection h with h
          injection h with h
          subst h
          left
          simpa using hlt
        · rcases hadv : advance_until_after A l f (some (av.getD {})) with e | W
          · simp [hadv, Except.map] at h
          · simp only [hadv, Except.map] at h
            injection h with h
            injection h with h
            subst h
            left
            simpa using advance_until_after_gt A l f (some (av.getD {})) W hadv

/-- C3 witness: WEEKLY with anchor 2025-02-01, no completion, reference
2025-01-01 — the result 2025-02-01 is the still-future anchor date. -/
theorem c3_witness :
    DateTime.lt ((none : Option DateTime).getD (dtc 2025 1 1)) (dtc 2025 2 1) ∨
      (derive_anchor_datetime (some .CUSTOM_DATE)
          (some ((some ({ date := some (.val (dtc 2025 2 1)) } : AnchorValue)).getD {}))
          (dtc 2025 1 1) none = .ok (dtc 2025 2 1) ∧
        DateTime.le ((none : Option DateTime).getD (dtc 2025 1 1)) (dtc 2025 2 1)) :=
  c3_progress .WEEKLY (some .CUSTOM_DATE) (some { date := some (.val (dtc 2025 2 1)) })
    none (dtc 2025 1 1) (dtc 2025 2 1) (by decide) (by decide) rfl

/-- C8: completing an obligation drives its status: null/ONE_TIME frequency
ends DONE with due fields cleared; BEFORE_EACH_USE ends READY with next_due
recomputed; any other cadence ends READY exactly when a recomputed next_due
exists and DONE otherwise; and a RecurrenceError raised by the resolver
during completion is caught, leaving the obligation with no next
occurrence. -/
theorem c8_mark_complete_status :
    ∀ (req : Requirement) (cb notes : Option String) (pc : Nat) (ts : DateTime),
    ((req.frequency = none ∨ req.frequency = some .ONE_TIME) →
      (req.mark_complete cb notes pc ts).1.status = .DONE ∧
      (req.mark_complete cb notes pc ts).1.next_due = none ∧
      (req.mark_complete cb notes pc ts).1.due_date = none)
    ∧ (req.frequency = some .BEFORE_EACH_USE →
      (req.mark_complete cb notes pc ts).1.status = .READY ∧
      (req.mark_complete cb notes pc ts).1.next_due = mark_complete_next_due req ts)
    ∧ (∀ f : Frequency, req.frequency = some f → f ≠ .ONE_TIME → f ≠ .BEFORE_EACH_USE →
      (req.mark_complete cb notes pc ts).1.next_due = mark_complete_next_due req ts ∧
      (req.mark_complete cb notes pc ts).1.due_date = mark_complete_next_due req ts ∧
      (req.mark_complete cb notes pc ts).1.status =
        (if (mark_complete_next_due req ts).isSome then .READY else .DONE))
    ∧ (∀ e : RecError, req.frequency ≠ none → req.frequency ≠ some .ONE_TIME →
      compute_next_due req.frequency req.anchor_type (some (mark_complete_anchor req ts))
        (some ts) ts = .error e →
      (req.mark_complete cb notes pc ts).1.next_due = none) := by
  intro req cb notes pc ts
  refine ⟨?_, ?_, ?_, ?_⟩
  · intro h
    rcases h with h | h <;>
      simp [Requirement.mark_complete, h]
  · intro h
    simp [Requirement.mark_complete, mark_complete_next_due, mark_complete_anchor, h]
  · intro f hf h1 h2
    simp [Requirement.mark_complete, mark_complete_next_due, mark_complete_anchor, hf,
      h1, h2]
  · intro e h1 h2 herr
    rcases hfq : req.frequency with _ | f
    · exact absurd hfq h1
    · rw [hfq] at herr h2
      have hf1 : f ≠ .ONE_TIME := fun hc => h2 (by rw [hc])
      by_cases hbeu : f = .BEFORE_EACH_USE
      · subst hbeu
        rw [mark_complete_anchor] at herr
        simp [Requirement.mark_complete, hfq, mark_complete_anchor, herr]
      · rw [mark_complete_anchor] at herr
        simp [Requirement.mark_complete, hfq, mark_complete_anchor, herr, hf1, hbeu]

/-- C8 witness: a ONE_TIME requirement completed at its anchor date ends
DONE with cleared due fields. -/
theorem c8_witness :
    (c1_req.mark_complete none none 0 (dtc 2025 1 8)).1.status = .READY ∧
      ({ c1_req with frequency := some .ONE_TIME }.mark_complete none none 0
        (dtc 2025 1 8)).1.status = .DONE ∧
      ({ c1_req with frequency := some .ONE_TIME }.mark_complete none none 0
        (dtc 2025 1 8)).1.next_due = none := by
  have h := (c8_mark_complete_status { c1_req with frequency := some .ONE_TIME }
    none none 0 (dtc 2025 1 8)).1 (Or.inr rfl)
  have h2 := (c8_mark_complete_status c1_req none none 0 (dtc 2025 1 8)).2.2.1 .WEEKLY
    rfl (by decide) (by decide)
  refine ⟨?_, h.1, h.2.1⟩
  rw [h2.2.2]
  decide

/-- Rows the update does not match are carried over unchanged. -/
theorem mem_updateFirst_of_not {α} {P : α → Bool} {f : α → α} (j : α) (hP : P j = false) :
    ∀ l : List α, j ∈ l → j ∈ updateFirst P f l := by
  intro l
  induction l with
  | nil => intro h; exact h
  | cons a t ih =>
    intro h
    unfold updateFirst
    rcases List.mem_cons.mp h with h | h
    · subst h
      simp [hP]
    · by_cases hpa : P a = true
      · simp only [hpa, if_true, reduceIte, List.mem_cons]
        exact Or.inr h
      · rw [Bool.not_eq_true] at hpa
        simp only [hpa, Bool.false_eq_true, if_false, reduceIte, List.mem_cons]
        exact Or.inr (ih h)

set_option maxRecDepth 8000 in
/-- C4 counterexample: a full materializer pass (`queue_reminders`, no open
requirements so the pass succeeds) mutates an existing SENT job in place —
row 50, SENT for the permit occurrence due 2025-03-02, has its `run_at`
moved from 2025-01-15 to 2025-01-31 and its payload refreshed by
`_upsert_job` — refuting the claim that after creation rows are mutated
only by the Dispatcher or deleted by the Materializer. -/
theorem c4_counterexample :
    c4_sent_job.status = .SENT ∧ c4_sent_job.run_at = dtc 2025 1 15 ∧
    (queue_reminders c4_store (dtc 2025 1 1)).map
        (fun acc => acc.1.jobs.find? fun j => j.id == 50) =
      .ok (some { c4_sent_job with
                  run_at := dtc 2025 1 31,
                  payload := .permitP "City Master Permit" (some "License")
                    "2025-03-02T00:00:00+00:00" }) := by
  exact ⟨rfl, rfl, rfl⟩

/-- C4 (amended): the stale-job sweep deletes only PENDING rows of the
given target whose `target_due_at` differs from the fresh due date — SENT
and FAILED rows survive it unchanged, as does any row carrying the kept due
date — and the upsert leaves every row that does not carry the upserted
uniqueness key untouched, so historical SENT/FAILED jobs for an old
occurrence are preserved across a due-date shift.  (Rows for the current
occurrence, however, may be refreshed in place by the Materializer's
upsert; the Dispatcher is not the only mutator.) -/
theorem c4_stale_sweep_frame :
    (∀ (jobs : List ReminderJob) (tt : String) (tid : Nat) (keep : Option DateTime)
      (j : ReminderJob), j ∈ jobs → (j.status = .SENT ∨ j.status = .FAILED) →
      j ∈ remove_stale_jobs jobs tt tid keep)
    ∧ (∀ (jobs : List ReminderJob) (tt : String) (tid : Nat) (k : DateTime)
      (j : ReminderJob), j ∈ jobs → j.target_due_at = some k →
      j ∈ remove_stale_jobs jobs tt tid (some k))
    ∧ (∀ (jobs : List ReminderJob) (tt : String) (tid : Nat) (keep : Option DateTime)
      (j : ReminderJob), j ∈ remove_stale_jobs jobs tt tid keep → j ∈ jobs)
    ∧ (∀ (jobs : List ReminderJob) (tt : String) (tid : Nat) (keep : Option DateTime)
      (j : ReminderJob), j ∈ jobs → j ∉ remove_stale_jobs jobs tt tid keep →
      j.status = .PENDING ∧ j.target_type = tt ∧ j.target_id = tid)
    ∧ (∀ (jobs : List ReminderJob) (nid org : Nat) (tt : String) (tid : Nat)
      (due : DateTime) (off : Nat) (r : Recipient) (p : Payload) (now : DateTime)
      (j : ReminderJob), j ∈ jobs → jobKeyMatch j tt tid due off r.email = false →
      j ∈ (upsert_job jobs nid org tt tid due off r p now).1) := by
  refine ⟨?_, ?_, ?_, ?_, ?_⟩
  · intro jobs tt tid keep j hj hs
    rw [remove_stale_jobs, List.mem_filter]
    refine ⟨hj, ?_⟩
    rcases hs with hs | hs <;> simp [hs]
  · intro jobs tt tid k j hj hd
    rw [remove_stale_jobs, List.mem_filter]
    refine ⟨hj, ?_⟩
    simp [hd]
  · intro jobs tt tid keep j hj
    exact (List.mem_filter.mp hj).1
  · intro jobs tt tid keep j hj hnot
    by_contra hcon
    refine hnot ?_
    rw [remove_stale_jobs, List.mem_filter]
    refine ⟨hj, ?_⟩
    simp only [Bool.not_eq_eq_eq_not, Bool.not_true, Bool.and_eq_false_imp] at *
    by_cases h1 : j.target_type = tt
    · by_cases h2 : j.target_id = tid
      · by_cases h3 : j.status = ReminderStatus.PENDING
        · exact absurd ⟨h3, h1, h2⟩ hcon
        · simp [h1, h2, h3]
      · simp [h1, h2]
    · simp [h1]
  · intro jobs nid org tt tid due off r p now j hj hkey
    rcases hro : upsert_run_at due off now with _ | ra
    · simpa only [upsert_job, hro] using hj
    · rcases hf : jobs.find? (fun x => jobKeyMatch x tt tid due off r.email) with _ | e
      · simp only [upsert_job, hro, hf]
        exact List.mem_append_left _ hj
      · simp only [upsert_job, hro, hf]
        exact mem_updateFirst_of_not j hkey jobs hj

/-- C4 witness: the SENT historical job for the old permit occurrence
survives the stale sweep run with the shifted due date 2025-03-09, and is
untouched by an upsert for the new occurrence. -/
theorem c4_witness :
    c4_sent_job ∈ remove_stale_jobs [c4_sent_job] "permit" 20 (some (dtc 2025 3 9)) ∧
    c4_sent_job ∈ (upsert_job [c4_sent_job] 100 1 "permit" 20 (dtc 2025 3 9) 1
      c_recipient c_payload (dtc 2025 1 1)).1 :=
  ⟨c4_stale_sweep_frame.1 [c4_sent_job] "permit" 20 (some (dtc 2025 3 9)) c4_sent_job
      (by simp) (Or.inl rfl),
   c4_stale_sweep_frame.2.2.2.2 [c4_sent_job] 100 1 "permit" 20 (dtc 2025 3 9) 1
      c_recipient c_payload (dtc 2025 1 1) c4_sent_job (by simp) (by decide)⟩

/-- C6: for every claimed PENDING job (live target, constant-raising email
client), the dispatcher increments the attempt counter and records the
error; once attempts reach 3 the job becomes FAILED (terminal, bumping the
failed metric) with `run_at` untouched, otherwise it stays PENDING with
`run_at` reset to reference time + 5 minutes; and three consecutive failing
passes over one job leave it FAILED with attempts = 3 and the `run_at` of
the second retry. -/
theorem c6_dispatch_retry :
    (∀ (app e : String) (now : DateTime) (store : Store) (stats : Stats)
      (job : ReminderJob) (org : Org),
      store.orgs.find? (fun o => o.id == job.org_id) = some org →
      (dispatch_target store job).isSome = true →
      job.status = .PENDING →
      ∃ job2 : ReminderJob,
        dispatch_job app (fun _ => .error e) now (store, stats) job =
          .ok ({ store with
                 jobs := store.jobs.map fun j => if j.id == job.id then job2 else j,
                 metrics := if 3 ≤ job.attempts + 1 then
                     record_reminder_failed store.metrics job.org_id
                   else store.metrics },
               { stats with failed := stats.failed + 1 }) ∧
        job2.attempts = job.attempts + 1 ∧
        job2.last_error = some e ∧
        job2.last_attempt_at = some now ∧
        (3 ≤ job.attempts + 1 → job2.status = .FAILED ∧ job2.run_at = job.run_at) ∧
        (job.attempts + 1 < 3 → job2.status = .PENDING ∧ job2.run_at = addMinutes now 5))
    ∧ c6_three_passes.map (fun r => (r.1.jobs, r.2)) =
        .ok ([{ c6_job with status := .FAILED,
                            attempts := 3,
                            run_at := dtt 2025 1 31 0 15,
                            last_attempt_at := some (dtt 2025 1 31 0 20),
                            last_error := some "boom" }],
             { sent := 0, failed := 1 }) := by
  constructor
  · intro app e now store stats job org horg htgt hstat
    rcases hdt : dispatch_target store job with _ | did
    · rw [hdt] at htgt
      cases htgt
    · by_cases h3 : 3 ≤ job.attempts + 1
      · refine ⟨{ job with status := .FAILED,
                            attempts := job.attempts + 1,
                            last_attempt_at := some now,
                            last_error := some e }, ?_, rfl, rfl, rfl,
          fun _ => ⟨rfl, rfl⟩, fun hlt => absurd h3 (by omega)⟩
        simp only [dispatch_job, horg, hdt, Bind.bind, Except.bind, h3, if_true, reduceIte]
      · refine ⟨{ job with attempts := job.attempts + 1,
                            last_attempt_at := some now,
                            last_error := some e,
                            run_at := addMinutes now 5 }, ?_, rfl, rfl, rfl,
          fun hge => absurd hge h3, fun _ => ⟨hstat ▸ rfl, rfl⟩⟩
        simp only [dispatch_job, horg, hdt, Bind.bind, Except.bind, h3, if_false, reduceIte]
  · rfl

/-- C6 witness: the general failure clause applied to the concrete claimed
job `c6_job` (attempts 0) in `c6_store` — it stays PENDING with `run_at`
pushed 5 minutes past the reference time. -/
theorem c6_witness :
    ∃ job2 : ReminderJob,
      dispatch_job "http://app" (fun _ => .error "boom") (dtc 2025 1 31)
          (c6_store, {}) c6_job =
        .ok ({ c6_store with
               jobs := c6_store.jobs.map fun j => if j.id == c6_job.id then job2 else j,
               metrics := if 3 ≤ c6_job.attempts + 1 then
                   record_reminder_failed c6_store.metrics c6_job.org_id
                 else c6_store.metrics },
             { (({} : Stats)) with failed := ({} : Stats).failed + 1 }) ∧
      job2.attempts = c6_job.attempts + 1 ∧
      job2.last_error = some "boom" ∧
      job2.last_attempt_at = some (dtc 2025 1 31) ∧
      (3 ≤ c6_job.attempts + 1 → job2.status = .FAILED ∧ job2.run_at = c6_job.run_at) ∧
      (c6_job.attempts + 1 < 3 → job2.status = .PENDING ∧
        job2.run_at = addMinutes (dtc 2025 1 31) 5) :=
  c6_dispatch_retry.1 "http://app" "boom" (dtc 2025 1 31) c6_store {} c6_job
    ⟨1, "QA Electric"⟩ rfl rfl rfl

/-- Replacing one row by id preserves the SENT invariant when the
replacement itself satisfies it. -/
theorem SentInv_map_replace (jobs : List ReminderJob) (jid : Nat) (j2 : ReminderJob)
    (h : SentInv jobs) (hj2 : j2.status = .SENT → 1 ≤ j2.attempts ∧ j2.last_error = none) :
    SentInv (jobs.map fun j => if j.id == jid then j2 else j) := by
  intro x hx hs
  rcases List.mem_map.mp hx with ⟨y, hy, hxy⟩
  by_cases hid : y.id == jid
  · rw [hid] at hxy
    simp only [if_true, reduceIte] at hxy
    subst hxy
    exact hj2 hs
  · rw [Bool.not_eq_true] at hid
    rw [hid] at hxy
    simp only [Bool.false_eq_true, if_false, reduceIte] at hxy
    subst hxy
    exact h y hy hs

/-- One dispatcher step preserves the SENT invariant (the claimed job is
PENDING, as every row of the claimed batch is). -/
theorem dispatch_job_SentInv (app : String) (client : EmailMessage → Except String Unit)
    (now : DateTime) (store : Store) (stats : Stats) (job : ReminderJob)
    (res : Store × Stats) (hstat : job.status = .PENDING) (hinv : SentInv store.jobs)
    (h : dispatch_job app client now (store, stats) job = .ok res) :
    SentInv res.1.jobs := by
  rcases horg : store.orgs.find? (fun o => o.id == job.org_id) with _ | org
  · simp [dispatch_job, horg, Bind.bind, Except.bind] at h
  · simp only [dispatch_job, horg, Bind.bind, Except.bind] at h
    rcases hdt : dispatch_target store job with _ | did <;> simp only [hdt] at h
    · injection h with h
      subst h
      exact SentInv_map_replace _ _ _ hinv (by intro hs; cases hs)
    · split at h
      · injection h with h
        subst h
        exact SentInv_map_replace _ _ _ hinv
          (by intro _; exact ⟨Nat.succ_le_succ (Nat.zero_le _), rfl⟩)
      · split at h
        · injection h with h
          subst h
          exact SentInv_map_replace _ _ _ hinv (by intro hs; cases hs)
        · injection h with h
          subst h
          refine SentInv_map_replace _ _ _ hinv ?_
          intro hs
          rw [hstat] at hs
          cases hs

/-- The dispatcher fold preserves the SENT invariant over any batch of
PENDING rows. -/
theorem foldl_dispatch_SentInv (app : String) (client : EmailMessage → Except String Unit)
    (now : DateTime) :
    ∀ (l : List ReminderJob) (acc res : Store × Stats),
      (∀ j ∈ l, j.status = .PENDING) → SentInv acc.1.jobs →
      List.foldlM (dispatch_job app client now) acc l = .ok res → SentInv res.1.jobs := by
  intro l
  induction l with
  | nil =>
    intro acc res _ hinv h
    simp only [List.foldlM_nil, pure, Except.pure] at h
    injection h with h
    subst h
    exact hinv
  | cons a t ih =>
    intro acc res hp hinv h
    rw [List.foldlM_cons] at h
    rcases hstep : dispatch_job app client now acc a with e | acc2
    · rw [hstep] at h
      simp [Bind.bind, Except.bind] at h
    · rw [hstep] at h
      simp only [Bind.bind, Except.bind] at h
      rcases acc2E : acc2 with ⟨st2, stats2⟩
      refine ih acc2 res (fun j hj => hp j (List.mem_cons_of_mem _ hj)) ?_ h
      rcases acc with ⟨st, stats⟩
      exact dispatch_job_SentInv app client now st stats a acc2
        (hp a (List.mem_cons_self a t)) hinv hstep

/-- Membership in an insertion step. -/
theorem mem_insertByRunAt (x j : ReminderJob) :
    ∀ l : List ReminderJob, x ∈ insertByRunAt j l → x = j ∨ x ∈ l := by
  intro l
  induction l with
  | nil =>
    intro h
    simpa [insertByRunAt] using h
  | cons a t ih =>
    intro h
    unfold insertByRunAt at h
    split at h
    · rcases List.mem_cons.mp h with h | h
      · exact Or.inr (h ▸ List.mem_cons_self a t)
      · rcases ih h with h | h
        · exact Or.inl h
        · exact Or.inr (List.mem_cons_of_mem _ h)
    · rcases List.mem_cons.mp h with h | h
      · exact Or.inl h
      · exact Or.inr h

/-- Membership after the insertion sort. -/
theorem mem_sortByRunAt (x : ReminderJob) :
    ∀ (l acc : List ReminderJob),
      x ∈ l.foldl (fun acc j => insertByRunAt j acc) acc → x ∈ acc ∨ x ∈ l := by
  intro l
  induction l with
  | nil => intro acc h; exact Or.inl h
  | cons a t ih =>
    intro acc h
    rw [List.foldl_cons] at h
    rcases ih (insertByRunAt a acc) h with h | h
    · rcases mem_insertByRunAt x a acc h with h | h
      · exact Or.inr (h ▸ List.mem_cons_self a t)
      · exact Or.inl h
    · exact Or.inr (List.mem_cons_of_mem _ h)

/-- Every row of the claimed dispatch batch is PENDING. -/
theorem dispatch_batch_pending (store : Store) (now : DateTime) (bs : Nat) :
    ∀ j ∈ dispatch_batch store now bs, j.status = .PENDING := by
  intro j hj
  have h1 := List.mem_of_mem_take hj
  rcases mem_sortByRunAt j _ [] h1 with h | h
  · cases h
  · have := (List.mem_filter.mp h).2
    have hb := (Bool.and_eq_true _ _).mp this
    exact eq_of_beq hb.1

/-- C10: a successful send also increments the attempt counter — the row
reaching SENT gets attempts = previous + 1 and a cleared error — and the
invariant "every SENT job has attempts ≥ 1 and no recorded error" is
preserved by every dispatch pass. -/
theorem c10_sent_attempts :
    (∀ (app : String) (now : DateTime) (store : Store) (stats : Stats)
      (job : ReminderJob) (org : Org),
      store.orgs.find? (fun o => o.id == job.org_id) = some org →
      (dispatch_target store job).isSome = true →
      ∃ job2 : ReminderJob,
        (dispatch_job app (fun _ => .ok ()) now (store, stats) job).map
            (fun st => st.1.jobs) =
          .ok (store.jobs.map fun j => if j.id == job.id then job2 else j) ∧
        (dispatch_job app (fun _ => .ok ()) now (store, stats) job).map
            (fun st => st.2.sent) =
          .ok (stats.sent + 1) ∧
        job2.status = .SENT ∧ job2.attempts = job.attempts + 1 ∧ job2.last_error = none)
    ∧ (∀ (store : Store) (now : DateTime) (client : EmailMessage → Except String Unit)
      (app : String) (bs : Nat) (store2 : Store) (stats : Stats),
      SentInv store.jobs →
      dispatch_reminders store now client app bs = .ok (store2, stats) →
      SentInv store2.jobs) := by
  constructor
  · intro app now store stats job org horg htgt
    rcases hdt : dispatch_target store job with _ | did
    · rw [hdt] at htgt
      cases htgt
    · refine ⟨{ job with status := .SENT,
                          attempts := job.attempts + 1,
                          last_attempt_at := some now,
                          last_error := none }, ?_, ?_, rfl, rfl, rfl⟩ <;>
        simp only [dispatch_job, horg, hdt, Bind.bind, Except.bind, Except.map]
  · intro store now client app bs store2 stats hinv h
    rw [dispatch_reminders] at h
    split at h
    · injection h with h
      have h1 : store = store2 := congrArg Prod.fst h
      subst h1
      exact hinv
    · exact foldl_dispatch_SentInv app client now (dispatch_batch store now bs)
        (store, {}) (store2, stats) (dispatch_batch_pending store now bs) hinv h

/-- C10 witness: the success clause at the concrete claimed job — it
reaches SENT with attempts 1 and no error. -/
theorem c10_witness :
    ∃ job2 : ReminderJob,
      (dispatch_job "http://app" (fun _ => .ok ()) (dtc 2025 1 31) (c6_store, {})
          c6_job).map (fun st => st.1.jobs) =
        .ok (c6_store.jobs.map fun j => if j.id == c6_job.id then job2 else j) ∧
      (dispatch_job "http://app" (fun _ => .ok ()) (dtc 2025 1 31) (c6_store, {})
          c6_job).map (fun st => st.2.sent) =
        .ok (({} : Stats).sent + 1) ∧
      job2.status = .SENT ∧ job2.attempts = c6_job.attempts + 1 ∧ job2.last_error = none :=
  c10_sent_attempts.1 "http://app" (dtc 2025 1 31) c6_store {} c6_job
    ⟨1, "QA Electric"⟩ rfl rfl

end CCopilot
